import Mathlib

/-!
Verification of the in-process HTTP key-value store in `src/main.go`.

The store is the global `storage` map guarded by a reader/writer mutex; the
four handlers (`setHandler` for POST/Create, `putHandler` for PUT/Upsert,
`getHandler` for GET/Read, `deleteHandler` for DELETE/Delete) are embedded as
pure functions from the current store and the decoded request to a response
paired with the new store.  The JSON request body is modelled by its decode
result: `some v` when `json.Decode` succeeds with value `v`, `none` when it
fails.  The lock discipline of each handler is modelled separately as the
ordered list of events each handler performs (lock, map access, body decode,
response write).
-/

set_option autoImplicit false
set_option linter.unusedVariables false
set_option maxHeartbeats 1000000

namespace TestServer

/-- JSON-like structured value, the decoded form of the `interface` values
that `src/main.go` stores: null, boolean, number, string, ordered array,
or object (ordered list of string-keyed fields). -/
inductive Value where
  | null : Value
  | bool : Bool → Value
  | num : Int → Value
  | str : String → Value
  | arr : List Value → Value
  | obj : List (String × Value) → Value
  deriving Repr

/-- The store state: the contents of the global `storage` map
(`map[string]interface` in `src/main.go`), as an association list with
unique keys. -/
abbrev Store := List (String × Value)

/-- Map lookup, `value, exists := storage[key]`: `some v` when the key is
present with value `v`, `none` when absent. -/
def lookup : Store → String → Option Value
  | [], _ => none
  | (k0, v0) :: rest, k => if k0 = k then some v0 else lookup rest k

/-- Map assignment `storage[key] = value`: replaces the value of an existing
key, otherwise appends a fresh entry. -/
def insert : Store → String → Value → Store
  | [], k, v => [(k, v)]
  | (k0, v0) :: rest, k, v =>
      if k0 = k then (k, v) :: rest else (k0, v0) :: insert rest k v

/-- Map removal `delete(storage, key)`: removes every entry for the key. -/
def erase : Store → String → Store
  | [], _ => []
  | (k0, v0) :: rest, k =>
      if k0 = k then erase rest k else (k0, v0) :: erase rest k

/-- What a handler writes back: the HTTP status code and, for a successful
GET, the marshalled body (the one-field object `key: value` built by
`json.Marshal` in `getHandler`). -/
structure Response where
  status : Nat
  body : Option Value
  deriving Repr

/-- POST handler (`setHandler` in `src/main.go`), the Create operation.
Under the write lock: if the key already exists, reply 409 Conflict and leave
the store alone; otherwise decode the body (`none` = decode error, reply 400
Bad Request, store untouched); otherwise insert and reply 201 Created. -/
def setHandler (storage : Store) (key : String) (body : Option Value) :
    Response × Store :=
  match lookup storage key with
  | some _ => (⟨409, none⟩, storage)
  | none =>
      match body with
      | none => (⟨400, none⟩, storage)
      | some value => (⟨201, none⟩, insert storage key value)

/-- PUT handler (`putHandler` in `src/main.go`), the Upsert operation.
Decode the body first (failure replies 400 Bad Request with the store
untouched); on success unconditionally assign `storage[key] = value` under
the write lock and reply 200 OK. -/
def putHandler (storage : Store) (key : String) (body : Option Value) :
    Response × Store :=
  match body with
  | none => (⟨400, none⟩, storage)
  | some value => (⟨200, none⟩, insert storage key value)

/-- GET handler (`getHandler` in `src/main.go`), the Read operation.
Look the key up under the read lock; absent replies 404 Not Found, present
replies 200 with the marshalled one-field object `key: value`.  The store is
returned unchanged. -/
def getHandler (storage : Store) (key : String) : Response × Store :=
  match lookup storage key with
  | none => (⟨404, none⟩, storage)
  | some value => (⟨200, some (Value.obj [(key, value)])⟩, storage)

/-- DELETE handler (`deleteHandler` in `src/main.go`), the Delete operation.
Under the write lock: absent key replies 404 Not Found and leaves the store
alone; present key is removed and the reply is 204 No Content. -/
def deleteHandler (storage : Store) (key : String) : Response × Store :=
  match lookup storage key with
  | none => (⟨404, none⟩, storage)
  | some _ => (⟨204, none⟩, erase storage key)

/-- Go `strings.TrimPrefix(s, p)`: drops `p` from the front of `s` when `s`
starts with it, otherwise returns `s` unchanged.  Implemented on the
character lists underlying the strings, which is what Go's byte-wise
HasPrefix/slice amounts to. -/
def trimPathKey (s p : String) : String :=
  if p.data.isPrefixOf s.data then String.mk (s.data.drop p.data.length)
  else s

/-- Dispatcher (`storageHandler` in `src/main.go`): extract the key from the
URL path, reject an empty key with 400 Bad Request before any store
operation, then dispatch on the HTTP method string; an unsupported method is
rejected with 405 Method Not Allowed. -/
def storageHandler (storage : Store) (method path : String)
    (body : Option Value) : Response × Store :=
  let key := trimPathKey path "/storage/"
  if key = "" then (⟨400, none⟩, storage)
  else if method = "GET" then getHandler storage key
  else if method = "POST" then setHandler storage key body
  else if method = "PUT" then putHandler storage key body
  else if method = "DELETE" then deleteHandler storage key
  else (⟨405, none⟩, storage)

/-- One inbound HTTP request as the dispatcher sees it: method, URL path,
and the decode result of its body. -/
structure Request where
  method : String
  path : String
  body : Option Value

/-- Run a sequence of requests through the dispatcher, threading the store. -/
def runRequests : Store → List Request → Store
  | s, [] => s
  | s, r :: rest => runRequests (storageHandler s r.method r.path r.body).2 rest

/-- One store-level operation with its decoded input, as dispatched to the
write handlers (`none` bodies model decode failures). -/
inductive Op where
  | create : String → Option Value → Op
  | upsert : String → Option Value → Op
  | del : String → Op

/-- The store after one operation (the response is dropped). -/
def applyOp (storage : Store) : Op → Store
  | Op.create k b => (setHandler storage k b).2
  | Op.upsert k b => (putHandler storage k b).2
  | Op.del k => (deleteHandler storage k).2

/-- The store after a sequence of operations. -/
def runOps (storage : Store) (ops : List Op) : Store :=
  ops.foldl applyOp storage

/-- Modelled from the spec: what `Read(k)` should see after one more
operation, given what it sees now (`cur`).  A successful Create on an absent
`k` or any successful Upsert on `k` installs its value, a successful Delete
on `k` removes it, and every other operation — on another key, failing to
decode, or a Create on a present `k` — leaves it unchanged.  This is the
spec side of the refinement for the "read reflects the last successful
write" claim; the code side is `lookup` after `runOps`. -/
def trackKey (k : String) (cur : Option Value) : Op → Option Value
  | Op.create k0 (some v) =>
      if k0 = k then (match cur with | none => some v | some w => some w)
      else cur
  | Op.create _ none => cur
  | Op.upsert k0 (some v) => if k0 = k then some v else cur
  | Op.upsert _ none => cur
  | Op.del k0 => if k0 = k then none else cur

/-- The events a handler performs, in source order, that matter for the lock
discipline: acquiring/releasing the write or read lock, touching the map,
decoding the request body from the connection, a structured-log write to
stdout (every `logger.Warn` / `logger.Error` / `logger.Info` call), and
writing the HTTP response. -/
inductive Ev where
  | lockW : Ev
  | unlockW : Ev
  | lockR : Ev
  | unlockR : Ev
  | mapRead : Ev
  | mapWrite : Ev
  | mapDelete : Ev
  | decodeBody : Ev
  | logWrite : Ev
  | writeResp : Ev
  deriving Repr, DecidableEq

/-- Event trace of `setHandler`: `mutex.Lock()` with a deferred unlock, the
existence check, and then — still under the lock — either the Warn log and
409 response (present key), or the body decode followed by the Error log
and 400 response (bad body) or by the map write, the Info log and the 201
response.  `ex` is whether the key already exists, `dec` whether the body
decodes. -/
def setHandlerTrace (ex dec : Bool) : List Ev :=
  [Ev.lockW, Ev.mapRead] ++
    (if ex then [Ev.logWrite, Ev.writeResp]
     else [Ev.decodeBody] ++
       (if dec then [Ev.mapWrite, Ev.logWrite, Ev.writeResp]
        else [Ev.logWrite, Ev.writeResp])) ++
    [Ev.unlockW]

/-- Event trace of `putHandler`: body decode first (a failure logs and
replies without ever locking), then lock, map write, unlock, and only after
the unlock the Info log and the response write. -/
def putHandlerTrace (dec : Bool) : List Ev :=
  Ev.decodeBody ::
    (if dec then [Ev.lockW, Ev.mapWrite, Ev.unlockW, Ev.logWrite,
        Ev.writeResp]
     else [Ev.logWrite, Ev.writeResp])

/-- Event trace of `getHandler`: read-lock around the lookup only; the
marshal, the log call and the response write happen after `RUnlock` (both
the found and the not-found branch log once and reply once). -/
def getHandlerTrace : List Ev :=
  [Ev.lockR, Ev.mapRead, Ev.unlockR, Ev.logWrite, Ev.writeResp]

/-- Event trace of `deleteHandler`: `mutex.Lock()` with a deferred unlock,
the existence check, then under the lock either the Warn log and 404
response, or the map delete, the Info log and the 204 response. -/
def deleteHandlerTrace (ex : Bool) : List Ev :=
  [Ev.lockW, Ev.mapRead] ++
    (if ex then [Ev.mapDelete, Ev.logWrite, Ev.writeResp]
     else [Ev.logWrite, Ev.writeResp]) ++
    [Ev.unlockW]

/-- The sublist of events performed while a lock is held. -/
def insideFrom : Bool → List Ev → List Ev
  | _, [] => []
  | _, Ev.lockW :: rest => insideFrom true rest
  | _, Ev.lockR :: rest => insideFrom true rest
  | _, Ev.unlockW :: rest => insideFrom false rest
  | _, Ev.unlockR :: rest => insideFrom false rest
  | held, e :: rest =>
      (if held then [e] else []) ++ insideFrom held rest

/-- The events of a trace that happen inside the critical section. -/
def insideLockEvents (t : List Ev) : List Ev :=
  insideFrom false t

/-- Whether an event is a plain in-memory map operation. -/
def isMapEv : Ev → Bool
  | Ev.mapRead => true
  | Ev.mapWrite => true
  | Ev.mapDelete => true
  | _ => false

/-! ## Lemmas about the map primitives -/

theorem lookup_insert (s : Store) (k : String) (v : Value) (k1 : String) :
    lookup (insert s k v) k1 = if k = k1 then some v else lookup s k1 := by
  induction s with
  | nil => simp [insert, lookup]
  | cons hd tl ih =>
      obtain ⟨k0, v0⟩ := hd
      by_cases h0 : k0 = k
      · subst h0
        by_cases h1 : k0 = k1 <;> simp [insert, lookup, h1]
      · by_cases h1 : k0 = k1
        · subst h1
          have : ¬ k = k0 := fun h => h0 h.symm
          simp [insert, lookup, h0, this]
        · simp [insert, lookup, h0, h1, ih]

theorem lookup_erase (s : Store) (k k1 : String) :
    lookup (erase s k) k1 = if k = k1 then none else lookup s k1 := by
  induction s with
  | nil => simp [erase, lookup]
  | cons hd tl ih =>
      obtain ⟨k0, v0⟩ := hd
      by_cases h0 : k0 = k
      · subst h0
        by_cases h1 : k0 = k1
        · subst h1; simp [erase, lookup, ih]
        · simp [erase, lookup, h1, ih]
      · by_cases h1 : k0 = k1
        · subst h1
          have : ¬ k = k0 := fun h => h0 h.symm
          simp [erase, lookup, h0, this]
        · simp [erase, lookup, h0, h1, ih]

theorem trackKey_step (s : Store) (op : Op) (k : String) :
    lookup (applyOp s op) k = trackKey k (lookup s k) op := by
  cases op with
  | create k0 b =>
      cases hl : lookup s k0 with
      | some w =>
          cases b with
          | none => simp [applyOp, setHandler, hl, trackKey]
          | some v =>
              by_cases hk : k0 = k
              · subst hk; simp [applyOp, setHandler, hl, trackKey]
              · simp [applyOp, setHandler, hl, trackKey, hk]
      | none =>
          cases b with
          | none => simp [applyOp, setHandler, hl, trackKey]
          | some v =>
              by_cases hk : k0 = k
              · subst hk
                simp [applyOp, setHandler, hl, trackKey, lookup_insert]
              · simp [applyOp, setHandler, hl, trackKey, lookup_insert, hk]
  | upsert k0 b =>
      cases b with
      | none => simp [applyOp, putHandler, trackKey]
      | some v =>
          by_cases hk : k0 = k
          · subst hk; simp [applyOp, putHandler, trackKey, lookup_insert]
          · simp [applyOp, putHandler, trackKey, lookup_insert, hk]
  | del k0 =>
      cases hl : lookup s k0 with
      | some w =>
          by_cases hk : k0 = k
          · subst hk; simp [applyOp, deleteHandler, hl, trackKey, lookup_erase]
          · simp [applyOp, deleteHandler, hl, trackKey, lookup_erase, hk]
      | none =>
          by_cases hk : k0 = k
          · subst hk; simp [applyOp, deleteHandler, hl, trackKey]
          · simp [applyOp, deleteHandler, hl, trackKey, hk]

theorem runOps_lookup (ops : List Op) (s : Store) (k : String) :
    lookup (runOps s ops) k = ops.foldl (trackKey k) (lookup s k) := by
  induction ops generalizing s with
  | nil => rfl
  | cons op rest ih =>
      show lookup (runOps (applyOp s op) rest) k = _
      rw [ih, trackKey_step]
      rfl

theorem insert_no_empty (s : Store) (k : String) (v : Value)
    (h : lookup s "" = none) (hk : k ≠ "") :
    lookup (insert s k v) "" = none := by
  rw [lookup_insert]
  simp [hk, h]

theorem erase_no_empty (s : Store) (k : String) (h : lookup s "" = none) :
    lookup (erase s k) "" = none := by
  rw [lookup_erase]
  by_cases hk : k = "" <;> simp [hk, h]

theorem storageHandler_no_empty (s : Store) (m p : String) (b : Option Value)
    (h : lookup s "" = none) :
    lookup (storageHandler s m p b).2 "" = none := by
  by_cases hkey : trimPathKey p "/storage/" = ""
  · simp [storageHandler, hkey, h]
  · unfold storageHandler
    simp only [hkey, if_false, if_neg]
    split_ifs with h1 h2 h3 h4
    · cases hl : lookup s (trimPathKey p "/storage/") with
      | none => simp [getHandler, hl, h]
      | some w => simp [getHandler, hl, h]
    · cases hl : lookup s (trimPathKey p "/storage/") with
      | none =>
          cases b with
          | none => simp [setHandler, hl, h]
          | some v => simp [setHandler, hl, insert_no_empty s _ v h hkey]
      | some w => simp [setHandler, hl, h]
    · cases b with
      | none => simp [putHandler, h]
      | some v => simp [putHandler, insert_no_empty s _ v h hkey]
    · cases hl : lookup s (trimPathKey p "/storage/") with
      | none => simp [deleteHandler, hl, h]
      | some w => simp [deleteHandler, hl, erase_no_empty s _ h]
    · simpa using h

theorem runRequests_no_empty (rs : List Request) (s : Store)
    (h : lookup s "" = none) :
    lookup (runRequests s rs) "" = none := by
  induction rs generalizing s with
  | nil => simpa [runRequests] using h
  | cons r rest ih =>
      rw [runRequests]
      exact ih _ (storageHandler_no_empty s r.method r.path r.body h)

/-! ## Claim theorems -/

/-- Claim C1: Create is insert-if-absent.  For every store state and
non-empty key, if the key is absent then Create succeeds with 201 and a
subsequent Read returns the inserted value; if the key is present with value
v0, Create reports 409 AlreadyExists, the store is unchanged, and Read still
returns v0. -/
theorem create_insert_if_absent (s : Store) (k : String) (v v0 v2 : Value)
    (hk : k ≠ "") :
    (lookup s k = none →
      (setHandler s k (some v)).1.status = 201 ∧
      lookup (setHandler s k (some v)).2 k = some v ∧
      (getHandler (setHandler s k (some v)).2 k).1 =
        ⟨200, some (Value.obj [(k, v)])⟩) ∧
    (lookup s k = some v0 →
      (setHandler s k (some v2)).1.status = 409 ∧
      (setHandler s k (some v2)).2 = s ∧
      (getHandler s k).1 = ⟨200, some (Value.obj [(k, v0)])⟩) := by
  constructor
  · intro habs
    simp [setHandler, habs, getHandler, lookup_insert]
  · intro hpres
    simp [setHandler, hpres, getHandler]

/-- Witness for C1: both branches at concrete stores and key "x". -/
theorem create_insert_if_absent_witness :
    ((setHandler [] "x" (some Value.null)).1.status = 201 ∧
      lookup (setHandler [] "x" (some Value.null)).2 "x" = some Value.null ∧
      (getHandler (setHandler [] "x" (some Value.null)).2 "x").1 =
        ⟨200, some (Value.obj [("x", Value.null)])⟩) ∧
    ((setHandler [("x", Value.null)] "x" (some (Value.num 1))).1.status = 409 ∧
      (setHandler [("x", Value.null)] "x" (some (Value.num 1))).2 =
        [("x", Value.null)] ∧
      (getHandler [("x", Value.null)] "x").1 =
        ⟨200, some (Value.obj [("x", Value.null)])⟩) :=
  ⟨(create_insert_if_absent [] "x" Value.null Value.null (Value.num 1)
      (by decide)).1 rfl,
   (create_insert_if_absent [("x", Value.null)] "x" Value.null Value.null
      (Value.num 1) (by decide)).2 rfl⟩

/-- Claim C2: Upsert is an unconditional insert-or-replace.  For every store
state, non-empty key and well-formed (decoded) value, Upsert replies 200
(in particular never 404 NotFound nor 409 AlreadyExists) and afterwards the
stored value is the given one; Upsert(k,v1) then Upsert(k,v2) then Read(k)
returns v2 regardless of the prior state. -/
theorem upsert_insert_or_replace (s : Store) (k : String) (v v1 v2 : Value)
    (hk : k ≠ "") :
    (putHandler s k (some v)).1.status = 200 ∧
    (putHandler s k (some v)).1.status ≠ 404 ∧
    (putHandler s k (some v)).1.status ≠ 409 ∧
    lookup (putHandler s k (some v)).2 k = some v ∧
    (getHandler (putHandler (putHandler s k (some v1)).2 k (some v2)).2 k).1 =
      ⟨200, some (Value.obj [(k, v2)])⟩ := by
  refine ⟨rfl, by simp [putHandler], by simp [putHandler], ?_, ?_⟩
  · simp [putHandler, lookup_insert]
  · simp [putHandler, getHandler, lookup_insert]

/-- Witness for C2 at the empty store, key "x", values null then 1. -/
theorem upsert_insert_or_replace_witness :
    (putHandler [] "x" (some Value.null)).1.status = 200 ∧
    (putHandler [] "x" (some Value.null)).1.status ≠ 404 ∧
    (putHandler [] "x" (some Value.null)).1.status ≠ 409 ∧
    lookup (putHandler [] "x" (some Value.null)).2 "x" = some Value.null ∧
    (getHandler (putHandler (putHandler [] "x" (some Value.null)).2 "x"
        (some (Value.num 1))).2 "x").1 =
      ⟨200, some (Value.obj [("x", Value.num 1)])⟩ :=
  upsert_insert_or_replace [] "x" Value.null Value.null (Value.num 1)
    (by decide)

/-- Claim C4: Delete is remove-if-present.  On a present key Delete replies
204 and a subsequent Read replies 404 NotFound; on an absent key Delete
replies 404 and leaves the store completely unchanged. -/
theorem delete_remove_if_present (s : Store) (k : String) (v0 : Value)
    (hk : k ≠ "") :
    (lookup s k = some v0 →
      (deleteHandler s k).1.status = 204 ∧
      lookup (deleteHandler s k).2 k = none ∧
      (getHandler (deleteHandler s k).2 k).1.status = 404) ∧
    (lookup s k = none →
      (deleteHandler s k).1.status = 404 ∧
      (deleteHandler s k).2 = s) := by
  constructor
  · intro hpres
    simp [deleteHandler, hpres, getHandler, lookup_erase]
  · intro habs
    simp [deleteHandler, habs]

/-- Witness for C4: both branches at concrete stores and key "x". -/
theorem delete_remove_if_present_witness :
    ((deleteHandler [("x", Value.null)] "x").1.status = 204 ∧
      lookup (deleteHandler [("x", Value.null)] "x").2 "x" = none ∧
      (getHandler (deleteHandler [("x", Value.null)] "x").2 "x").1.status =
        404) ∧
    ((deleteHandler [] "x").1.status = 404 ∧ (deleteHandler [] "x").2 = []) :=
  ⟨(delete_remove_if_present [("x", Value.null)] "x" Value.null
      (by decide)).1 rfl,
   (delete_remove_if_present [] "x" Value.null (by decide)).2 rfl⟩

/-- Claim C9: frame property.  An operation invoked with key k leaves the
entry of every other key unchanged: Create, Upsert and Delete touch at most
the entry for k, and Read returns the store as it was. -/
theorem frame_other_keys (s : Store) (k k1 : String) (b : Option Value)
    (hne : k1 ≠ k) :
    lookup (setHandler s k b).2 k1 = lookup s k1 ∧
    lookup (putHandler s k b).2 k1 = lookup s k1 ∧
    lookup (deleteHandler s k).2 k1 = lookup s k1 ∧
    (getHandler s k).2 = s := by
  have hne1 : ¬ (k = k1) := fun h => hne h.symm
  refine ⟨?_, ?_, ?_, ?_⟩
  · cases h : lookup s k with
    | some w => simp [setHandler, h]
    | none =>
        cases b with
        | none => simp [setHandler, h]
        | some v => simp [setHandler, h, lookup_insert, hne1]
  · cases b with
    | none => simp [putHandler]
    | some v => simp [putHandler, lookup_insert, hne1]
  · cases h : lookup s k with
    | some w => simp [deleteHandler, h, lookup_erase, hne1]
    | none => simp [deleteHandler, h]
  · cases h : lookup s k with
    | some w => simp [getHandler, h]
    | none => simp [getHandler, h]

/-- Witness for C9 with keys "x" and "y" on a one-entry store. -/
theorem frame_other_keys_witness :
    lookup (setHandler [("y", Value.null)] "x" (some (Value.num 1))).2 "y" =
      lookup [("y", Value.null)] "y" ∧
    lookup (putHandler [("y", Value.null)] "x" (some (Value.num 1))).2 "y" =
      lookup [("y", Value.null)] "y" ∧
    lookup (deleteHandler [("y", Value.null)] "x").2 "y" =
      lookup [("y", Value.null)] "y" ∧
    (getHandler [("y", Value.null)] "x").2 = [("y", Value.null)] :=
  frame_other_keys [("y", Value.null)] "x" "y" (some (Value.num 1))
    (by decide)

/-- Claim C10: a stored null value is distinct from absence.  After
Create(k, null) on an absent key, or after Upsert(k, null) on any store, the
key is present: Read replies 200 with the null value rather than 404, a
subsequent Create replies 409 AlreadyExists, and Delete replies 204. -/
theorem null_value_is_present (s : Store) (k : String) (v2 : Value) :
    (lookup s k = none →
      lookup (setHandler s k (some Value.null)).2 k = some Value.null ∧
      (getHandler (setHandler s k (some Value.null)).2 k).1 =
        ⟨200, some (Value.obj [(k, Value.null)])⟩ ∧
      (setHandler (setHandler s k (some Value.null)).2 k (some v2)).1.status =
        409 ∧
      (deleteHandler (setHandler s k (some Value.null)).2 k).1.status = 204) ∧
    (lookup (putHandler s k (some Value.null)).2 k = some Value.null ∧
      (getHandler (putHandler s k (some Value.null)).2 k).1 =
        ⟨200, some (Value.obj [(k, Value.null)])⟩ ∧
      (setHandler (putHandler s k (some Value.null)).2 k (some v2)).1.status =
        409 ∧
      (deleteHandler (putHandler s k (some Value.null)).2 k).1.status = 204) := by
  constructor
  · intro habs
    simp [setHandler, habs, getHandler, deleteHandler, lookup_insert]
  · simp [putHandler, setHandler, getHandler, deleteHandler, lookup_insert]

/-- Witness for C10 at the empty store and key "x". -/
theorem null_value_is_present_witness :
    (lookup (setHandler [] "x" (some Value.null)).2 "x" = some Value.null ∧
      (getHandler (setHandler [] "x" (some Value.null)).2 "x").1 =
        ⟨200, some (Value.obj [("x", Value.null)])⟩ ∧
      (setHandler (setHandler [] "x" (some Value.null)).2 "x"
          (some (Value.num 1))).1.status = 409 ∧
      (deleteHandler (setHandler [] "x" (some Value.null)).2 "x").1.status =
        204) ∧
    (lookup (putHandler [] "x" (some Value.null)).2 "x" = some Value.null ∧
      (getHandler (putHandler [] "x" (some Value.null)).2 "x").1 =
        ⟨200, some (Value.obj [("x", Value.null)])⟩ ∧
      (setHandler (putHandler [] "x" (some Value.null)).2 "x"
          (some (Value.num 1))).1.status = 409 ∧
      (deleteHandler (putHandler [] "x" (some Value.null)).2 "x").1.status =
        204) :=
  ⟨(null_value_is_present [] "x" (Value.num 1)).1 rfl,
   (null_value_is_present [] "x" (Value.num 1)).2⟩

/-- Claim C5: Read reflects the last successful write.  Over any sequence of
Create/Upsert/Delete operations from the empty store, the value `lookup`
sees for a key equals the fold of the spec-side `trackKey` — the key is
present exactly when a successful Create or Upsert installed it and no
later successful Delete removed it, holding the value of the most recent
successful mutation — and Read never mutates the store. -/
theorem read_reflects_last_write (ops : List Op) (k : String) (s : Store)
    (k1 : String) :
    lookup (runOps [] ops) k = ops.foldl (trackKey k) none ∧
    (getHandler s k1).2 = s := by
  constructor
  · exact runOps_lookup ops [] k
  · cases h : lookup s k1 with
    | none => simp [getHandler, h]
    | some w => simp [getHandler, h]

/-- Claim C6: the empty-string key is never stored.  A request whose
extracted key is empty is answered 400 by the dispatcher with the store
untouched, and every store reachable from the empty store through the
request handler has no entry for the empty-string key. -/
theorem empty_key_never_stored (rs : List Request) (s : Store)
    (m p : String) (b : Option Value) :
    (trimPathKey p "/storage/" = "" →
      storageHandler s m p b = (⟨400, none⟩, s)) ∧
    lookup (runRequests [] rs) "" = none := by
  constructor
  · intro hkey
    simp [storageHandler, hkey]
  · exact runRequests_no_empty rs [] rfl

/-- Witness for C6: the bare path is rejected, and a run of one POST leaves
no empty-string entry. -/
theorem empty_key_never_stored_witness :
    storageHandler [] "GET" "/storage/" none = (⟨400, none⟩, []) ∧
    lookup (runRequests [] [⟨"POST", "/storage/x", some Value.null⟩]) "" =
      none :=
  ⟨(empty_key_never_stored [⟨"POST", "/storage/x", some Value.null⟩] []
      "GET" "/storage/" none).1 (by decide),
   (empty_key_never_stored [⟨"POST", "/storage/x", some Value.null⟩] []
      "GET" "/storage/" none).2⟩

/-- Claim C7: the concrete CRUD scenario from the empty store, run through
the dispatcher on path "/storage/x": GET 404; POST of the foo/bar object
201; GET returns it; POST of the a/1 object 409 and GET still returns the
original; PUT of the a/1 object 200 and GET returns it; DELETE 204 and GET
404; a second DELETE 404. -/
theorem scenario_crud_sequence :
    (storageHandler [] "GET" "/storage/x" none).1.status = 404 ∧
    (storageHandler [] "GET" "/storage/x" none).2 = [] ∧
    storageHandler [] "POST" "/storage/x"
        (some (Value.obj [("foo", Value.str "bar")])) =
      (⟨201, none⟩, [("x", Value.obj [("foo", Value.str "bar")])]) ∧
    (storageHandler [("x", Value.obj [("foo", Value.str "bar")])] "GET"
        "/storage/x" none).1 =
      ⟨200, some (Value.obj
        [("x", Value.obj [("foo", Value.str "bar")])])⟩ ∧
    storageHandler [("x", Value.obj [("foo", Value.str "bar")])] "POST"
        "/storage/x" (some (Value.obj [("a", Value.num 1)])) =
      (⟨409, none⟩, [("x", Value.obj [("foo", Value.str "bar")])]) ∧
    storageHandler [("x", Value.obj [("foo", Value.str "bar")])] "PUT"
        "/storage/x" (some (Value.obj [("a", Value.num 1)])) =
      (⟨200, none⟩, [("x", Value.obj [("a", Value.num 1)])]) ∧
    (storageHandler [("x", Value.obj [("a", Value.num 1)])] "GET"
        "/storage/x" none).1 =
      ⟨200, some (Value.obj [("x", Value.obj [("a", Value.num 1)])])⟩ ∧
    storageHandler [("x", Value.obj [("a", Value.num 1)])] "DELETE"
        "/storage/x" none =
      (⟨204, none⟩, []) ∧
    (storageHandler [] "DELETE" "/storage/x" none).1.status = 404 ∧
    (storageHandler [] "DELETE" "/storage/x" none).2 = [] :=
  ⟨rfl, rfl, rfl, rfl, rfl, rfl, rfl, rfl, rfl, rfl⟩

/-- Counterexample to claim C3: the decode check does NOT come first for
Create.  `setHandler` checks presence before decoding, so Create on a
present key with an undecodable body reports 409 AlreadyExists, not 400
InvalidValue. -/
theorem create_present_key_ignores_decode :
    (setHandler [("x", Value.null)] "x" none).1.status = 409 ∧
    ¬ (setHandler [("x", Value.null)] "x" none).1.status = 400 :=
  ⟨rfl, by decide⟩

/-- Claim C3 (amended): an undecodable value yields 400 InvalidValue for
Upsert on any store and for Create on an absent key, but Create checks
presence first, so on a present key it reports 409 AlreadyExists whatever
the body; in every one of these cases the store is left unchanged. -/
theorem invalid_value_store_unchanged (s : Store) (k : String) :
    ((putHandler s k none).1.status = 400 ∧ (putHandler s k none).2 = s) ∧
    (lookup s k = none →
      (setHandler s k none).1.status = 400 ∧ (setHandler s k none).2 = s) ∧
    (∀ b : Option Value, ∀ v0 : Value, lookup s k = some v0 →
      (setHandler s k b).1.status = 409 ∧ (setHandler s k b).2 = s) := by
  refine ⟨⟨rfl, rfl⟩, ?_, ?_⟩
  · intro habs
    simp [setHandler, habs]
  · intro b v0 hpres
    simp [setHandler, hpres]

/-- Witness for the amended C3 at concrete stores and key "x". -/
theorem invalid_value_store_unchanged_witness :
    ((putHandler [] "x" none).1.status = 400 ∧
      (putHandler [] "x" none).2 = []) ∧
    ((setHandler [] "x" none).1.status = 400 ∧
      (setHandler [] "x" none).2 = []) ∧
    ((setHandler [("x", Value.null)] "x" none).1.status = 409 ∧
      (setHandler [("x", Value.null)] "x" none).2 = [("x", Value.null)]) :=
  ⟨(invalid_value_store_unchanged [] "x").1,
   (invalid_value_store_unchanged [] "x").2.1 rfl,
   (invalid_value_store_unchanged [("x", Value.null)] "x").2.2 none
     Value.null rfl⟩

/-- Counterexample to claim C8: `setHandler` does not keep its critical
section to in-memory map work — on an absent key it decodes the request
body while holding the write lock, so its inside-the-lock events are not
all map operations and include the body decode. -/
theorem create_decodes_inside_lock :
    (insideLockEvents (setHandlerTrace false true)).all isMapEv = false ∧
    (insideLockEvents (setHandlerTrace false true)).contains Ev.decodeBody =
      true := by
  decide

/-- Claim C8 (amended): only Upsert and Read keep their critical sections to
in-memory map work — Upsert decodes the body before taking the lock, holds
it only for the single map write, and logs and replies after the unlock;
Read holds the read lock only for the map lookup.  Create, however, decodes
the request body inside the write lock (after the presence check), and
Create and Delete also perform their stdout log write and their HTTP
response write while holding the lock, on every branch. -/
theorem critical_section_contents (ex dec : Bool) :
    insideLockEvents (putHandlerTrace dec) =
      (if dec then [Ev.mapWrite] else []) ∧
    insideLockEvents getHandlerTrace = [Ev.mapRead] ∧
    insideLockEvents (setHandlerTrace ex dec) =
      Ev.mapRead :: (if ex then [Ev.logWrite, Ev.writeResp]
        else Ev.decodeBody ::
          (if dec then [Ev.mapWrite, Ev.logWrite, Ev.writeResp]
           else [Ev.logWrite, Ev.writeResp])) ∧
    insideLockEvents (deleteHandlerTrace ex) =
      Ev.mapRead ::
        (if ex then [Ev.mapDelete, Ev.logWrite, Ev.writeResp]
         else [Ev.logWrite, Ev.writeResp]) := by
  cases ex <;> cases dec <;> exact ⟨rfl, rfl, rfl, rfl⟩

end TestServer

